import Mathlib

/-!
Verification of the Kurobbs auto check-in workflow (`src/auto_checkin.py`).

The file gives a shallow embedding of the data model and the operations of
the script: the uniform response envelope, the check-in payload builder,
the orchestrator (`_process_sign_action`, `start`, `msg`, `_log`), the
entry point `main`, and the secondary Qmsg push. HTTP transport is kept
abstract: every operation is a pure function of the envelope or remote
outcome it observes.
-/

/-- Small JSON-like value type for dictionary payloads and role records. -/
inductive JVal where
  | jnull
  | jbool (b : Bool)
  | jint (n : Int)
  | jstr (s : String)
deriving DecidableEq

/-- A JSON object, as an insertion-ordered association list. -/
abbrev JDict := List (String × JVal)

/-- Python `dict.get(key, dflt)`: the value stored under `key`, else `dflt`. -/
def dictGet (d : JDict) (k : String) (dflt : JVal) : JVal :=
  (d.lookup k).getD dflt

/-- Python truthiness of an `Optional[bool]`: `None` and `False` are falsy. -/
def truthy : Option Bool → Bool
  | some b => b
  | none => false

/-- Python truthiness of a JSON value, as used on `result.get("success")`. -/
def truthyJVal : JVal → Bool
  | JVal.jnull => false
  | JVal.jbool b => b
  | JVal.jint n => n != 0
  | JVal.jstr s => s != ""

/-- Python `str()` rendering of a JSON value, used in the Qmsg failure log. -/
def pyStr : JVal → String
  | JVal.jnull => "None"
  | JVal.jbool true => "True"
  | JVal.jbool false => "False"
  | JVal.jint n => toString n
  | JVal.jstr s => s

/-- The uniform response envelope (`class Response`): status code, message,
optional success flag (only for token-authenticated endpoints), optional
payload whose shape depends on the endpoint. -/
structure Response (α : Type) where
  code : Int
  msg : String
  success : Option Bool
  data : Option α
deriving DecidableEq

/-- JSON rendering of an `Optional[bool]` field. -/
def optBoolJson : Option Bool → String
  | none => "null"
  | some true => "true"
  | some false => "false"

/-- The debug trace of `make_request`:
`res.model_dump_json(indent=2, exclude=set(data))`, i.e. the envelope
serialized with the `data` field excluded. -/
def model_dump_json_exclude_data {α : Type} (r : Response α) : String :=
  "\x7b\n  \"code\": " ++ toString r.code ++ ",\n  \"msg\": \"" ++ r.msg ++
    "\",\n  \"success\": " ++ optBoolJson r.success ++ "\n\x7d"

/-- Python `f"\x7bdate:02d\x7d"` for the current month: zero-padded to two digits. -/
def pad2 (m : Nat) : String :=
  if m < 10 then "0" ++ toString m else toString m

/-- Errors a run can surface. `indexError` models the unguarded
`user_game_list[0]` on an empty list. -/
inductive PyError where
  | indexError
  | noRoleFound
deriving DecidableEq

/-- Payload built by `KurobbsClient.checkin` from the role list returned by
`get_user_game_list(3)` and the current month: the first role record is
indexed unguarded (raising on an empty list), and each field is read with
`.get` and the default the source uses (`gameId` 2, `serverId` None,
`roleId` 0, `userId` 0), plus `reqMonth` zero-padded. -/
def checkin_payload (user_game_list : List JDict) (month : Nat) :
    Except PyError JDict :=
  match user_game_list with
  | [] => Except.error PyError.indexError
  | first :: _ =>
    Except.ok [("gameId", dictGet first "gameId" (JVal.jint 2)),
               ("serverId", dictGet first "serverId" JVal.jnull),
               ("roleId", dictGet first "roleId" (JVal.jint 0)),
               ("userId", dictGet first "userId" (JVal.jint 0)),
               ("reqMonth", JVal.jstr (pad2 month))]

/-- Python `str.join`: `sep.join(l)`. -/
def joinStrings (sep : String) : List String → String
  | [] => ""
  | [x] => x
  | x :: y :: xs => x ++ sep ++ joinStrings sep (y :: xs)

/-- Python dict assignment `d[k] = v` on an insertion-ordered dict:
overwrite in place when the key exists, else append. -/
def dictSet (d : List (String × String)) (k v : String) :
    List (String × String) :=
  if (d.lookup k).isSome then
    d.map (fun p => if p.1 = k then (k, v) else p)
  else
    d ++ [(k, v)]

/-- The mutable state of a `KurobbsClient`: `self.result` (action name to
success message, insertion order = call order) and `self.exceptions`
(recorded failure messages, in order). -/
structure ClientState where
  result : List (String × String)
  exceptions : List String
deriving DecidableEq

/-- The state a fresh `KurobbsClient` starts from. -/
def initState : ClientState := ⟨[], []⟩

/-- `KurobbsClient._process_sign_action`, applied to the envelope the action
returned: on a truthy `success` flag record the success message under the
action name, otherwise append the failure message to the exceptions. -/
def processSignAction {α : Type} (st : ClientState) (action_name : String)
    (resp : Response α) (success_message failure_message : String) :
    ClientState :=
  if truthy resp.success then
    { st with result := dictSet st.result action_name success_message }
  else
    { st with exceptions := st.exceptions ++ [failure_message] }

/-- `KurobbsClient.msg`: the recorded success messages joined by `", "`
with a trailing `"!"`. -/
def msgOf (st : ClientState) : String :=
  joinStrings ", " (st.result.map Prod.snd) ++ "!"

/-- `KurobbsClient._log`: the info log emitted (the combined message, when
non-empty) and the aggregate exception raised (the failure messages joined
by `", "`, when any were recorded). -/
def logStep (st : ClientState) : List String × Option String :=
  let m := msgOf st
  let infoLogs := if m ≠ "" then [m] else []
  let err :=
    if st.exceptions = [] then none
    else some (joinStrings ", " st.exceptions)
  (infoLogs, err)

/-- Result of one `KurobbsClient.start` run over the two envelopes. -/
structure StartOutcome where
  state : ClientState
  infoLogs : List String
  err : Option String
deriving DecidableEq

/-- `KurobbsClient.start`, as a function of the two envelopes the actions
returned: process the check-in envelope, then the sign-in envelope, then
run `_log`. -/
def start {α : Type} (r1 r2 : Response α) : StartOutcome :=
  let st1 := processSignAction initState "checkin" r1 "签到奖励签到成功" "签到奖励签到失败"
  let st2 := processSignAction st1 "sign_in" r2 "社区签到成功" "社区签到失败"
  let lr := logStep st2
  ⟨st2, lr.1, lr.2⟩

/-- Observable outcome of `main`: the exit code, the messages sent to the
primary (Bark) channel, and the messages `send_qmsg_notification` was
invoked with. -/
structure MainResult where
  exitCode : Nat
  barkMessages : List String
  qmsgCalls : List String
deriving DecidableEq

/-- What one run of `main` observed: either both actions returned
envelopes, or some non-`KurobbsClientException` exception escaped the
workflow (transport error, malformed response, empty role list). -/
inductive RunInput (α : Type) where
  | envelopes (r1 r2 : Response α)
  | unexpected (e : String)

/-- `main`: run `start`; on success send both notifications with the
combined message when it is non-empty and exit 0; on a
`KurobbsClientException` send only the fixed Bark failure message and exit
1; on any other exception send nothing and exit 1. -/
def mainRun {α : Type} (input : RunInput α) : MainResult :=
  match input with
  | RunInput.envelopes r1 r2 =>
    let out := start r1 r2
    match out.err with
    | none =>
      let m := msgOf out.state
      if m ≠ "" then ⟨0, [m], [m]⟩ else ⟨0, [], []⟩
    | some _ => ⟨1, ["签到任务失败!"], []⟩
  | RunInput.unexpected _ => ⟨1, [], []⟩

/-- Log levels used by the script. -/
inductive LogLevel where
  | warning
  | info
  | errlvl
deriving DecidableEq

/-- Abstract outcome of the Qmsg remote call: the GET plus `.json()`
either raises or yields a parsed dictionary. -/
inductive QmsgRemote where
  | raises (e : String)
  | responds (d : JDict)

/-- Body of the `try` block of `send_qmsg_notification`: perform the
remote call and log per the `success` field, propagating any exception. -/
def send_qmsg_body (remote : QmsgRemote) :
    Except String (List (LogLevel × String)) :=
  match remote with
  | QmsgRemote.raises e => Except.error e
  | QmsgRemote.responds d =>
    if truthyJVal (dictGet d "success" JVal.jnull) then
      Except.ok [(LogLevel.info, "Qmsg推送成功")]
    else
      Except.ok [(LogLevel.errlvl,
        "Qmsg推送失败: " ++ pyStr (dictGet d "reason" JVal.jnull))]

/-- `send_qmsg_notification message qmsg_token remote` returns whether the
remote call was attempted and the log entries emitted; a falsy token
(absent or empty) skips with a warning, and any exception from the body is
caught and logged. The outer `Except` carries a propagated exception. -/
def send_qmsg_notification (message : String) (qmsg_token : Option String)
    (remote : QmsgRemote) :
    Except String (Bool × List (LogLevel × String)) :=
  match qmsg_token with
  | none =>
    Except.ok (false, [(LogLevel.warning, "未配置QMSG_TOKEN，跳过Qmsg推送")])
  | some t =>
    if t = "" then
      Except.ok (false, [(LogLevel.warning, "未配置QMSG_TOKEN，跳过Qmsg推送")])
    else
      match send_qmsg_body remote with
      | Except.ok logs => Except.ok (true, logs)
      | Except.error e =>
        Except.ok (true, [(LogLevel.errlvl, "Qmsg推送异常: " ++ e)])

/-! Helper lemmas. -/

/-- Every element of a joined list occurs as a substring of the join,
witnessed by an explicit decomposition. -/
theorem joinStrings_mem_decomp (sep : String) (l : List String) (e : String)
    (h : e ∈ l) : ∃ p q, joinStrings sep l = p ++ e ++ q := by
  induction l with
  | nil => exact absurd h (List.not_mem_nil e)
  | cons x xs ih =>
    cases xs with
    | nil =>
      have hx : e = x := by simpa using h
      subst hx
      refine ⟨"", "", ?_⟩
      show e = "" ++ e ++ ""
      apply String.ext
      simp
    | cons y ys =>
      rcases List.mem_cons.mp h with rfl | hmem
      · refine ⟨"", sep ++ joinStrings sep (y :: ys), ?_⟩
        show e ++ sep ++ joinStrings sep (y :: ys) =
          "" ++ e ++ (sep ++ joinStrings sep (y :: ys))
        apply String.ext
        simp
      · rcases ih hmem with ⟨p, q, hpq⟩
        refine ⟨x ++ sep ++ p, q, ?_⟩
        show x ++ sep ++ joinStrings sep (y :: ys) = x ++ sep ++ p ++ e ++ q
        rw [hpq]
        apply String.ext
        simp

/-- The aggregate error of a run is exactly the join of the recorded
failure messages, absent when none were recorded. -/
theorem start_err_eq {α : Type} (r1 r2 : Response α) :
    (start r1 r2).err = (if (start r1 r2).state.exceptions = [] then none
      else some (joinStrings ", " (start r1 r2).state.exceptions)) := by
  rfl

/-! Claim theorems. -/

/-- Claim C1: for every pair of envelope outcomes of the two actions,
`start` attempts both actions even when the first envelope reports failure
(each action ends up recorded in the result or in the exceptions,
independently of the other), and every recorded failure appears inside the
aggregate error text, not just the first. -/
theorem start_no_short_circuit {α : Type} (r1 r2 : Response α) :
    (truthy r1.success = true →
      (start r1 r2).state.result.lookup "checkin" = some "签到奖励签到成功") ∧
    (truthy r1.success = false → "签到奖励签到失败" ∈ (start r1 r2).state.exceptions) ∧
    (truthy r2.success = true →
      (start r1 r2).state.result.lookup "sign_in" = some "社区签到成功") ∧
    (truthy r2.success = false → "社区签到失败" ∈ (start r1 r2).state.exceptions) ∧
    (∀ e, e ∈ (start r1 r2).state.exceptions →
      ∃ p q, (start r1 r2).err = some (p ++ e ++ q)) := by
  refine ⟨?_, ?_, ?_, ?_, ?_⟩
  · intro h1
    cases h2 : truthy r2.success <;>
      simp [start, processSignAction, initState, dictSet, h1, h2]
  · intro h1
    cases h2 : truthy r2.success <;>
      simp [start, processSignAction, initState, dictSet, h1, h2]
  · intro h2
    cases h1 : truthy r1.success <;>
      simp [start, processSignAction, initState, dictSet, h1, h2] <;> decide
  · intro h2
    cases h1 : truthy r1.success <;>
      simp [start, processSignAction, initState, dictSet, h1, h2]
  · intro e he
    rw [start_err_eq r1 r2]
    have hne : (start r1 r2).state.exceptions ≠ [] := by
      intro h0
      rw [h0] at he
      exact absurd he (List.not_mem_nil e)
    rw [if_neg hne]
    rcases joinStrings_mem_decomp ", " _ e he with ⟨p, q, hpq⟩
    exact ⟨p, q, by rw [hpq]⟩

/-- Witness for C1 at a concrete pair of failing envelopes. -/
theorem start_no_short_circuit_witness :
    ("签到奖励签到失败" ∈
      (start (⟨200, "", some false, none⟩ : Response Nat)
             (⟨200, "", none, none⟩ : Response Nat)).state.exceptions) ∧
    ("社区签到失败" ∈
      (start (⟨200, "", some false, none⟩ : Response Nat)
             (⟨200, "", none, none⟩ : Response Nat)).state.exceptions) :=
  ⟨(start_no_short_circuit (⟨200, "", some false, none⟩ : Response Nat)
      (⟨200, "", none, none⟩ : Response Nat)).2.1 rfl,
   (start_no_short_circuit (⟨200, "", some false, none⟩ : Response Nat)
      (⟨200, "", none, none⟩ : Response Nat)).2.2.2.1 rfl⟩

/-- Claim C2: when both envelopes report success, the aggregate message is
the two success messages joined by `", "` followed by `"!"` in call order,
no error is raised, and `main` exits with code 0 invoking the notifiers
exactly once with that message. -/
theorem both_success_outcome {α : Type} (r1 r2 : Response α)
    (h1 : r1.success = some true) (h2 : r2.success = some true) :
    msgOf (start r1 r2).state = "签到奖励签到成功, 社区签到成功!" ∧
    (start r1 r2).err = none ∧
    mainRun (RunInput.envelopes r1 r2) =
      ⟨0, ["签到奖励签到成功, 社区签到成功!"], ["签到奖励签到成功, 社区签到成功!"]⟩ := by
  have ht1 : truthy r1.success = true := by rw [h1]; rfl
  have ht2 : truthy r2.success = true := by rw [h2]; rfl
  simp [mainRun, start, processSignAction, initState, dictSet, logStep, msgOf,
    joinStrings, ht1, ht2]

/-- Witness for C2 at concrete successful envelopes. -/
theorem both_success_outcome_witness :
    mainRun (RunInput.envelopes (⟨200, "OK", some true, some 1⟩ : Response Nat)
             ⟨200, "OK", some true, some 2⟩) =
      ⟨0, ["签到奖励签到成功, 社区签到成功!"], ["签到奖励签到成功, 社区签到成功!"]⟩ :=
  (both_success_outcome (⟨200, "OK", some true, some 1⟩ : Response Nat)
    ⟨200, "OK", some true, some 2⟩ rfl rfl).2.2

/-- Claim C3: with exactly one failing envelope the aggregate error carries
only that failure message, while the other success message is still logged
(inside the combined info message); with two failing envelopes the error
joins both failure messages with `", "` in call order. -/
theorem one_failure_aggregate {α : Type} (r1 r2 : Response α) :
    (truthy r1.success = true → truthy r2.success = false →
      (start r1 r2).err = some "社区签到失败" ∧
      (start r1 r2).infoLogs = ["签到奖励签到成功!"]) ∧
    (truthy r1.success = false → truthy r2.success = true →
      (start r1 r2).err = some "签到奖励签到失败" ∧
      (start r1 r2).infoLogs = ["社区签到成功!"]) ∧
    (truthy r1.success = false → truthy r2.success = false →
      (start r1 r2).err = some "签到奖励签到失败, 社区签到失败") := by
  refine ⟨?_, ?_, ?_⟩ <;> intro h1 h2 <;>
    simp [start, processSignAction, initState, dictSet, logStep, msgOf,
      joinStrings, h1, h2]

/-- Witness for C3 at concrete envelopes: one failing, then both failing. -/
theorem one_failure_aggregate_witness :
    (start (⟨200, "", some true, none⟩ : Response Nat)
           (⟨200, "", some false, none⟩ : Response Nat)).err =
      some "社区签到失败" ∧
    (start (⟨200, "", some false, none⟩ : Response Nat)
           (⟨200, "", some false, none⟩ : Response Nat)).err =
      some "签到奖励签到失败, 社区签到失败" :=
  ⟨((one_failure_aggregate (⟨200, "", some true, none⟩ : Response Nat)
      (⟨200, "", some false, none⟩ : Response Nat)).1 rfl rfl).1,
   (one_failure_aggregate (⟨200, "", some false, none⟩ : Response Nat)
      (⟨200, "", some false, none⟩ : Response Nat)).2.2 rfl rfl⟩

/-- Claim C4: the process exits with code 0 on success and 1 both on
aggregate check-in failure and on any unexpected error; on the
aggregate-failure path only the fixed Bark message "签到任务失败!" is sent
and the secondary channel is skipped entirely, and on the unexpected-error
path no notification is sent at all. -/
theorem exit_code_paths {α : Type} (r1 r2 : Response α) (e em : String) :
    ((start r1 r2).err = none → (mainRun (RunInput.envelopes r1 r2)).exitCode = 0) ∧
    ((start r1 r2).err = some em →
      mainRun (RunInput.envelopes r1 r2) = ⟨1, ["签到任务失败!"], []⟩) ∧
    mainRun (RunInput.unexpected e : RunInput α) = ⟨1, [], []⟩ := by
  refine ⟨?_, ?_, rfl⟩
  · intro h
    simp only [mainRun, h]
    split <;> rfl
  · intro h
    simp only [mainRun, h]

/-- Witness for C4 at a concrete failing run. -/
theorem exit_code_paths_witness :
    mainRun (RunInput.envelopes (⟨200, "", some false, none⟩ : Response Nat)
             (⟨200, "", some true, none⟩ : Response Nat)) =
      ⟨1, ["签到任务失败!"], []⟩ :=
  (exit_code_paths (⟨200, "", some false, none⟩ : Response Nat)
    (⟨200, "", some true, none⟩ : Response Nat) "e" "签到奖励签到失败").2.1 rfl

/-- Claim C5: for every non-empty role list whose first record carries the
four ids, the check-in payload is exactly those four ids plus `reqMonth`
set to the current month zero-padded to two digits. -/
theorem checkin_payload_fields (rest : List JDict) (first : JDict)
    (g s ro u : JVal) (m : Nat)
    (hg : first.lookup "gameId" = some g)
    (hs : first.lookup "serverId" = some s)
    (hr : first.lookup "roleId" = some ro)
    (hu : first.lookup "userId" = some u) :
    checkin_payload (first :: rest) m =
      Except.ok [("gameId", g), ("serverId", s), ("roleId", ro),
                 ("userId", u), ("reqMonth", JVal.jstr (pad2 m))] := by
  simp [checkin_payload, dictGet, hg, hs, hr, hu]

/-- Witness for C5: the role list of the spec example with month 7. -/
theorem checkin_payload_fields_witness :
    checkin_payload [[("gameId", JVal.jint 2), ("serverId", JVal.jint 101),
      ("roleId", JVal.jint 55), ("userId", JVal.jint 9)]] 7 =
      Except.ok [("gameId", JVal.jint 2), ("serverId", JVal.jint 101),
        ("roleId", JVal.jint 55), ("userId", JVal.jint 9),
        ("reqMonth", JVal.jstr "07")] := by
  have h := checkin_payload_fields [] [("gameId", JVal.jint 2),
    ("serverId", JVal.jint 101), ("roleId", JVal.jint 55),
    ("userId", JVal.jint 9)] (JVal.jint 2) (JVal.jint 101) (JVal.jint 55)
    (JVal.jint 9) 7 rfl rfl rfl rfl
  simpa [pad2] using h

/-- Claim C6, counterexample: on an empty role list `checkin` fails with an
index error from the unguarded `[0]`, not with the `NoRoleFound` failure
the claim states. -/
theorem checkin_empty_not_noRoleFound :
    checkin_payload [] 7 = Except.error PyError.indexError ∧
    PyError.indexError ≠ PyError.noRoleFound ∧
    checkin_payload [] 7 ≠ Except.error PyError.noRoleFound := by
  refine ⟨rfl, by decide, ?_⟩
  intro h
  simp [checkin_payload] at h

/-- Claim C6 (amended): on an empty role list `checkin` performs an
unguarded index into the empty collection and fails with an index error,
for every month. -/
theorem checkin_empty_index_error (m : Nat) :
    checkin_payload [] m = Except.error PyError.indexError := rfl

/-- Witness for the amended C6 at a concrete month. -/
theorem checkin_empty_index_error_witness :
    checkin_payload [] 5 = Except.error PyError.indexError :=
  checkin_empty_index_error 5

/-- Claim C7: the secondary Qmsg push is skipped (no request attempted)
when its credential is absent; with a credential present a raising remote
call is caught and logged as an error; and no input at all makes the
function propagate an exception. -/
theorem qmsg_skip_and_swallow (message t e : String) (remote : QmsgRemote)
    (ht : t ≠ "") :
    send_qmsg_notification message none remote =
      Except.ok (false, [(LogLevel.warning, "未配置QMSG_TOKEN，跳过Qmsg推送")]) ∧
    send_qmsg_notification message (some t) (QmsgRemote.raises e) =
      Except.ok (true, [(LogLevel.errlvl, "Qmsg推送异常: " ++ e)]) ∧
    (∀ (tok : Option String) (rem : QmsgRemote), ∃ out,
      send_qmsg_notification message tok rem = Except.ok out) := by
  refine ⟨rfl, ?_, ?_⟩
  · simp [send_qmsg_notification, send_qmsg_body, ht]
  · intro tok rem
    cases tok with
    | none => exact ⟨_, rfl⟩
    | some t2 =>
      by_cases h2 : t2 = ""
      · exact ⟨(false, [(LogLevel.warning, "未配置QMSG_TOKEN，跳过Qmsg推送")]),
          by simp [send_qmsg_notification, h2]⟩
      · cases rem with
        | raises e2 =>
          exact ⟨(true, [(LogLevel.errlvl, "Qmsg推送异常: " ++ e2)]),
            by simp [send_qmsg_notification, send_qmsg_body, h2]⟩
        | responds d =>
          by_cases hs : truthyJVal (dictGet d "success" JVal.jnull)
          · exact ⟨(true, [(LogLevel.info, "Qmsg推送成功")]),
              by simp [send_qmsg_notification, send_qmsg_body, h2, hs]⟩
          · exact ⟨(true, [(LogLevel.errlvl,
                "Qmsg推送失败: " ++ pyStr (dictGet d "reason" JVal.jnull))]),
              by simp [send_qmsg_notification, send_qmsg_body, h2, hs]⟩

/-- Witness for C7 at a concrete message, token and raising remote. -/
theorem qmsg_skip_and_swallow_witness :
    send_qmsg_notification "签到奖励签到成功, 社区签到成功!" none (QmsgRemote.raises "boom") =
      Except.ok (false, [(LogLevel.warning, "未配置QMSG_TOKEN，跳过Qmsg推送")]) ∧
    send_qmsg_notification "签到奖励签到成功, 社区签到成功!" (some "tok")
        (QmsgRemote.raises "boom") =
      Except.ok (true, [(LogLevel.errlvl, "Qmsg推送异常: boom")]) := by
  have h := qmsg_skip_and_swallow "签到奖励签到成功, 社区签到成功!" "tok" "boom"
    (QmsgRemote.raises "boom") (by decide)
  exact ⟨h.1, by simpa using h.2.1⟩

/-- Claim C8: an envelope whose optional success flag is absent is
processed exactly like one with explicit `success = false`: the failure
message is appended and absence is never treated as success. -/
theorem success_none_is_failure {α : Type} (st : ClientState)
    (action_name sm fm : String) (r : Response α) (h : r.success = none) :
    processSignAction st action_name r sm fm =
      { st with exceptions := st.exceptions ++ [fm] } ∧
    processSignAction st action_name r sm fm =
      processSignAction st action_name
        { r with success := some false } sm fm := by
  have ht : truthy r.success = false := by rw [h]; rfl
  have ht2 : truthy (some false) = false := rfl
  constructor <;> simp [processSignAction, ht, ht2]

/-- Witness for C8 at a concrete envelope with an absent success flag. -/
theorem success_none_is_failure_witness :
    processSignAction initState "checkin"
        (⟨200, "", none, none⟩ : Response Nat) "ok" "fail" =
      { initState with exceptions := initState.exceptions ++ ["fail"] } :=
  (success_none_is_failure initState "checkin" "ok" "fail"
    (⟨200, "", none, none⟩ : Response Nat) rfl).1

/-- Claim C9: the combined message always carries a trailing `"!"` and is
never empty; with no recorded successes it is exactly `"!"`, so the
non-emptiness guard in `_log` never suppresses the info log. -/
theorem msg_never_empty (st : ClientState) :
    msgOf st ≠ "" ∧ (st.result = [] → msgOf st = "!") ∧
    (logStep st).1 = [msgOf st] := by
  have hne : msgOf st ≠ "" := by
    intro h
    have hd := congrArg String.data h
    simp [msgOf] at hd
  refine ⟨hne, ?_, ?_⟩
  · intro h
    simp [msgOf, h, joinStrings]
  · simp [logStep, hne]

/-- Witness for C9 at the fresh client state with zero successes. -/
theorem msg_never_empty_witness :
    msgOf initState ≠ "" ∧ msgOf initState = "!" ∧
    (logStep initState).1 = [msgOf initState] :=
  ⟨(msg_never_empty initState).1, (msg_never_empty initState).2.1 rfl,
   (msg_never_empty initState).2.2⟩

/-- Claim C10: the debug trace of `make_request` excludes the `data` field:
two envelopes differing only in `data` produce identical debug output. -/
theorem debug_trace_excludes_data {α : Type} (r1 r2 : Response α)
    (hc : r1.code = r2.code) (hm : r1.msg = r2.msg)
    (hs : r1.success = r2.success) :
    model_dump_json_exclude_data r1 = model_dump_json_exclude_data r2 := by
  simp [model_dump_json_exclude_data, hc, hm, hs]

/-- Witness for C10 at two concrete envelopes differing only in `data`. -/
theorem debug_trace_excludes_data_witness :
    model_dump_json_exclude_data (⟨200, "OK", some true, some 1⟩ : Response Nat) =
      model_dump_json_exclude_data (⟨200, "OK", some true, some 2⟩ : Response Nat) :=
  debug_trace_excludes_data (⟨200, "OK", some true, some 1⟩ : Response Nat)
    (⟨200, "OK", some true, some 2⟩ : Response Nat) rfl rfl rfl
